import Mathlib

/-!
Shallow embedding of `src/embedder.py` (class `BertEmbedder` and its
`__main__` driver).

The two external collaborators are modelled at their boundaries, as the
code observes them:

* the vector store (Weaviate client) is modelled as an explicit state
  `StoreState` holding the collections, the inserted records, and an
  ordered trace of the calls the program issued to it; whether a given
  store call succeeds is an input (`World`), since the store is a black
  box;
* the embedding model (`SentenceTransformer.encode`) is modelled as a
  function parameter `encode : String → Option Vec`; `none` is the
  model failing on an input (the spec's ModelError).

Python exceptions are modelled with `Except PyErr`; vectors as `List Int`
(only construction and equality of vectors matter to the program, never
float arithmetic).
-/

namespace EmbedderModel

/-- Embedding vectors. The program never computes with vector entries, it
only moves them around, so an integer carrier suffices. -/
abbrev Vec := List Int

/-- Weaviate property data types used by the program (`DataType.TEXT`). -/
inductive WDataType
  | TEXT
deriving DecidableEq, Repr

/-- One property of a collection schema, as passed to
`client.collections.create` in `_create_schema`. -/
structure WProperty where
  name : String
  data_type : WDataType
deriving DecidableEq, Repr

/-- A collection in the store: its name, its property schema, and whether
it was created with `Configure.Vectorizer.none()` (no automatic
vectorization by the store). -/
structure WCollection where
  name : String
  properties : List WProperty
  vectorizerNone : Bool
deriving DecidableEq, Repr

/-- A record as the program hands it to the store: the `properties` dict
with keys `text` and `text_id`, plus the externally supplied `vector`. -/
structure WRecord where
  text : String
  text_id : String
  vector : Vec
deriving DecidableEq, Repr

/-- The store calls the program can issue, in the order issued
(observable trace at the vector-store boundary). -/
inductive StoreCall
  | existsCheck (name : String)
  | create (name : String) (properties : List WProperty) (vectorizerNone : Bool)
  | insert (name : String) (r : WRecord)
  | insertMany (name : String) (rs : List WRecord)
  | closeConn
deriving DecidableEq, Repr

/-- The collection a call writes records into, if it is a write. -/
def StoreCall.writeTarget : StoreCall → Option String
  | .insert name _ => some name
  | .insertMany name _ => some name
  | _ => none

/-- State of the external store as observed through the client. -/
structure StoreState where
  collections : List WCollection
  records : List (String × WRecord)
  calls : List StoreCall
deriving DecidableEq, Repr

def StoreState.empty : StoreState := ⟨[], [], []⟩

def StoreState.logCall (st : StoreState) (c : StoreCall) : StoreState :=
  { st with calls := st.calls ++ [c] }

/-- `client.collections.exists(name)`. -/
def collectionExists (st : StoreState) (name : String) : Bool :=
  st.collections.any (fun c => c.name == name)

/-- Python exceptions that can surface from the program, including the
spec's error taxonomy. `attributeError` is Python's `AttributeError`
(accessing `self.client` when it was never assigned); `connectError` is
whatever `weaviate.connect_to_weaviate_cloud` raises on failure. -/
inductive PyErr
  | configurationError
  | attributeError
  | connectError
  | modelError
  | schemaError
  | writeError
deriving DecidableEq, Repr

/-- One session's run state: the store, the fresh-identifier counter, and
a ledger of connections opened and closed (for resource accounting). -/
structure RunState where
  store : StoreState
  nextUuid : Nat
  opens : Nat
  closes : Nat
deriving DecidableEq, Repr

def initialRunState : RunState := ⟨StoreState.empty, 0, 0, 0⟩

/-- Modelled from the spec: `str(uuid.uuid4())` is a fresh random
identifier with UUID-v4 semantics, effectively collision-free; it is
embedded as an injective supply of fresh identifier strings drawn from a
session counter. -/
def genUuid (n : Nat) : String :=
  "uuid-" ++ String.mk (List.replicate n 'x')

/-- Python truthiness of an `Optional[str]` (`if weaviate_url and
weaviate_api_key:`): `None` and the empty string are falsy. -/
def truthy : Option String → Bool
  | none => false
  | some s => !(s == "")

/-- Default `weaviate_url` argument hardcoded in `BertEmbedder.__init__`. -/
def default_weaviate_url : Option String :=
  some "https://osvcpzz6sjaaloedhjbha.c0.europe-west3.gcp.weaviate.cloud"

/-- Default `weaviate_api_key` argument hardcoded in `BertEmbedder.__init__`. -/
def default_weaviate_api_key : Option String :=
  some "N2plUjYzemxTVHhXY1poNl9SZzA2bisxdjZQYTlPTTJvUEI2L0dlVkFEN1d1bHJwOTR1bmFNZTBtRHFNPV92MjAw"

/-- The properties `_create_schema` passes to `collections.create`. -/
def schemaProperties : List WProperty :=
  [⟨"text", .TEXT⟩, ⟨"text_id", .TEXT⟩]

/-- `BertEmbedder._create_schema`: check whether collection
`TextEmbedding` exists; if not, create it with properties `text` and
`text_id` and `Vectorizer.none()`. `schemaOk` is the black-box store's
behaviour: when false the store is unreachable or rejects the request and
the client raises (the spec's SchemaError). -/
def create_schema (schemaOk : Bool) (st : StoreState) :
    Except PyErr Unit × StoreState :=
  if schemaOk then
    if collectionExists (st.logCall (.existsCheck "TextEmbedding")) "TextEmbedding" then
      (.ok (), st.logCall (.existsCheck "TextEmbedding"))
    else
      (.ok (),
        { st.logCall (.existsCheck "TextEmbedding") with
          collections := st.collections ++ [⟨"TextEmbedding", schemaProperties, true⟩],
          calls := (st.logCall (.existsCheck "TextEmbedding")).calls
            ++ [.create "TextEmbedding" schemaProperties true] })
  else
    (.error .schemaError, st)

/-- `BertEmbedder.embed_text`: `self.model.encode(text).tolist()`;
propagates the model's failure as ModelError. -/
def embed_text (encode : String → Option Vec) (text : String) :
    Except PyErr Vec :=
  match encode text with
  | some v => .ok v
  | none => .error .modelError

/-- Modelled from the spec: the external model's batched form
(`self.model.encode(texts)` on a list, used at line 113) returns one
vector per input text, in input order, each equal to the single-text
encoding; it fails when the model cannot process some input. -/
def encodeBatch (encode : String → Option Vec) : List String → Option (List Vec)
  | [] => some []
  | t :: rest =>
    match encode t, encodeBatch encode rest with
    | some v, some vs => some (v :: vs)
    | _, _ => none

/-- `BertEmbedder.store_embedding`: embed the text, generate a UUID when
`text_id` is `None`, then insert one record with the vector supplied
directly. `insertOk` is the black-box store accepting or rejecting the
insert (rejection raises, the spec's WriteError); a rejected insert was
still issued, so it is still traced. -/
def store_embedding (encode : String → Option Vec) (insertOk : Bool)
    (text : String) (text_id : Option String) (rs : RunState) :
    Except PyErr String × RunState :=
  match embed_text encode text with
  | .error e => (.error e, rs)
  | .ok embedding =>
    let p : String × RunState :=
      match text_id with
      | some t => (t, rs)
      | none => (genUuid rs.nextUuid, { rs with nextUuid := rs.nextUuid + 1 })
    let tid := p.1
    let rs1 := p.2
    let r : WRecord := ⟨text, tid, embedding⟩
    if insertOk then
      (.ok tid,
        { rs1 with
          store :=
            { rs1.store with
              records := rs1.store.records ++ [("TextEmbedding", r)],
              calls := rs1.store.calls ++ [.insert "TextEmbedding" r] } })
    else
      (.error .writeError, { rs1 with store := rs1.store.logCall (.insert "TextEmbedding" r) })

/-- The loop body of `batch_store_embeddings`: walk `zip(texts,
embeddings)` generating one fresh UUID per pair, building the
`DataObject` list and the `stored_ids` list in input order. -/
def mkBatchObjects : List (String × Vec) → Nat → List WRecord × List String
  | [], _ => ([], [])
  | (t, v) :: rest, n =>
    let tid := genUuid n
    let p := mkBatchObjects rest (n + 1)
    (⟨t, tid, v⟩ :: p.1, tid :: p.2)

/-- `BertEmbedder.batch_store_embeddings`: batch-encode all texts, build
one record per text with a fresh UUID, then submit them in a single
`insert_many` call (issued even when the list is empty). `insertManyOk`
is the black-box store accepting or rejecting the batch as a whole. -/
def batch_store_embeddings (encode : String → Option Vec) (insertManyOk : Bool)
    (texts : List String) (rs : RunState) :
    Except PyErr (List String) × RunState :=
  match encodeBatch encode texts with
  | none => (.error .modelError, rs)
  | some embeddings =>
    let p := mkBatchObjects (texts.zip embeddings) rs.nextUuid
    let objs := p.1
    let ids := p.2
    let rs1 := { rs with nextUuid := rs.nextUuid + ids.length }
    if insertManyOk then
      (.ok ids,
        { rs1 with
          store :=
            { rs1.store with
              records := rs1.store.records ++ objs.map (fun r => ("TextEmbedding", r)),
              calls := rs1.store.calls ++ [.insertMany "TextEmbedding" objs] } })
    else
      (.error .writeError,
        { rs1 with store := rs1.store.logCall (.insertMany "TextEmbedding" objs) })

/-- `BertEmbedder.close`: `self.client.close()`. -/
def close (rs : RunState) : RunState :=
  { rs with closes := rs.closes + 1, store := rs.store.logCall .closeConn }

/-- Behaviour of the black-box collaborators during one run: whether the
cloud connection succeeds, whether store schema operations succeed, the
embedding model, and whether single/batch inserts are accepted. -/
structure World where
  connectOk : Bool
  schemaOk : Bool
  encode : String → Option Vec
  insertOk : Bool
  insertManyOk : Bool

/-- `BertEmbedder.__init__`: load the model, then — only when both the
URL and the API key are truthy — connect to the cloud (acquiring the
connection resource); otherwise merely print "clound is not working" and
leave `self.client` unassigned. Afterwards call `_create_schema`
unconditionally: with no client assigned, its very first expression
`self.client.collections.exists(...)` raises `AttributeError` before any
store call is issued. -/
def bertEmbedderInit (w : World) (weaviate_url weaviate_api_key : Option String)
    (rs : RunState) : Except PyErr Unit × RunState :=
  if truthy weaviate_url && truthy weaviate_api_key then
    if w.connectOk then
      match create_schema w.schemaOk rs.store with
      | (.ok _, st) => (.ok (), { rs with opens := rs.opens + 1, store := st })
      | (.error e, st) => (.error e, { rs with opens := rs.opens + 1, store := st })
    else
      (.error .connectError, rs)
  else
    (.error .attributeError, rs)

/-- The sample texts of the `__main__` block. -/
def sample_texts : List String :=
  ["The quick brown fox jumps over the lazy dog.",
   "Machine learning is transforming the world of technology.",
   "Weaviate is a vector database for storing embeddings.",
   "BERT creates contextual word embeddings."]

/-- The body of the `try:` block after the constructor succeeded: one
single store, then one batch store; the first exception aborts the rest. -/
def mainBody (w : World) (rs : RunState) : Except PyErr Unit × RunState :=
  match store_embedding w.encode w.insertOk "This is a test sentence." none rs with
  | (.error e, rs1) => (.error e, rs1)
  | (.ok _, rs1) =>
    match batch_store_embeddings w.encode w.insertManyOk sample_texts rs1 with
    | (.error e, rs2) => (.error e, rs2)
    | (.ok _, rs2) => (.ok (), rs2)

/-- The `__main__` driver: `embedder = None; try: embedder =
BertEmbedder(); ...body... finally: if embedder: embedder.close()`. When
the constructor itself raises, `embedder` is still `None`, so the
`finally` block skips `close()`. -/
def runMain (w : World) : RunState :=
  match bertEmbedderInit w default_weaviate_url default_weaviate_api_key initialRunState with
  | (.error _, rs) => rs
  | (.ok _, rs) => close (mainBody w rs).2

/-- A run of the external collaborators in which everything succeeds and
the model embeds every text as the one-entry vector of its length. -/
def happyWorld : World :=
  ⟨true, true, fun s => some [Int.ofNat s.length], true, true⟩

/-- A run in which the connection succeeds but the store rejects the
schema operations (the spec's SchemaError during `_create_schema`). -/
def schemaFailWorld : World :=
  ⟨true, false, fun s => some [Int.ofNat s.length], true, true⟩

/-! ## Helper lemmas -/

theorem genUuid_length (n : Nat) : (genUuid n).length = 5 + n := by
  simp [genUuid, String.length]
  omega

theorem genUuid_injective : Function.Injective genUuid := by
  intro a b h
  have h2 := congrArg String.length h
  rw [genUuid_length, genUuid_length] at h2
  omega

theorem mkBatchObjects_fst_length (pairs : List (String × Vec)) (n : Nat) :
    (mkBatchObjects pairs n).1.length = pairs.length := by
  induction pairs generalizing n with
  | nil => rfl
  | cons p rest ih => simp [mkBatchObjects, ih]

theorem mkBatchObjects_snd (pairs : List (String × Vec)) (n : Nat) :
    (mkBatchObjects pairs n).2 = (List.range pairs.length).map (fun i => genUuid (n + i)) := by
  induction pairs generalizing n with
  | nil => rfl
  | cons p rest ih =>
    rcases p with ⟨t, v⟩
    simp only [mkBatchObjects, ih, List.length_cons, List.range_succ_eq_map,
      List.map_cons, List.map_map]
    refine congrArg₂ List.cons (congrArg genUuid (Nat.add_zero n).symm) ?_
    refine List.map_congr_left fun a _ => ?_
    exact congrArg genUuid (by omega)

theorem mkBatchObjects_snd_length (pairs : List (String × Vec)) (n : Nat) :
    (mkBatchObjects pairs n).2.length = pairs.length := by
  rw [mkBatchObjects_snd]
  simp

theorem mkBatchObjects_snd_nodup (pairs : List (String × Vec)) (n : Nat) :
    (mkBatchObjects pairs n).2.Nodup := by
  rw [mkBatchObjects_snd]
  exact List.Nodup.map
    (fun a b hab => Nat.add_left_cancel (genUuid_injective hab))
    (List.nodup_range pairs.length)

theorem mkBatchObjects_snd_get (pairs : List (String × Vec)) (n : Nat)
    (i : Nat) (h2 : i < (mkBatchObjects pairs n).2.length) :
    (mkBatchObjects pairs n).2.get ⟨i, h2⟩ = genUuid (n + i) := by
  have := mkBatchObjects_snd pairs n
  rw [List.get_of_eq this]
  simp

theorem mkBatchObjects_fst_get (pairs : List (String × Vec)) (n : Nat) :
    ∀ i (h : i < pairs.length) (h1 : i < (mkBatchObjects pairs n).1.length),
      (mkBatchObjects pairs n).1.get ⟨i, h1⟩ =
        ⟨(pairs.get ⟨i, h⟩).1, genUuid (n + i), (pairs.get ⟨i, h⟩).2⟩ := by
  induction pairs generalizing n with
  | nil => intro i h h1; exact absurd h (Nat.not_lt_zero i)
  | cons p rest ih =>
    intro i h h1
    match i with
    | 0 => simp [mkBatchObjects]
    | Nat.succ j =>
      have hj : j < rest.length := Nat.lt_of_succ_lt_succ h
      have hj1 : j < (mkBatchObjects rest (n + 1)).1.length := by
        rw [mkBatchObjects_fst_length]; exact hj
      have key := ih (n + 1) j hj hj1
      rcases p with ⟨t, v⟩
      rw [show n + (j + 1) = n + 1 + j from by omega]
      simpa [mkBatchObjects] using key

theorem store_embedding_ledger (encode : String → Option Vec) (ok : Bool)
    (text : String) (tid : Option String) (rs : RunState) :
    (store_embedding encode ok text tid rs).2.opens = rs.opens ∧
    (store_embedding encode ok text tid rs).2.closes = rs.closes := by
  unfold store_embedding embed_text
  cases encode text <;> cases tid <;> cases ok <;> simp [StoreState.logCall]

theorem batch_store_embeddings_ledger (encode : String → Option Vec) (ok : Bool)
    (texts : List String) (rs : RunState) :
    (batch_store_embeddings encode ok texts rs).2.opens = rs.opens ∧
    (batch_store_embeddings encode ok texts rs).2.closes = rs.closes := by
  unfold batch_store_embeddings
  cases h : encodeBatch encode texts <;> cases ok <;> simp [h, StoreState.logCall]

theorem mainBody_ledger (w : World) (rs : RunState) :
    (mainBody w rs).2.opens = rs.opens ∧ (mainBody w rs).2.closes = rs.closes := by
  rcases h1 : store_embedding w.encode w.insertOk "This is a test sentence." none rs
    with ⟨r1, rs1⟩
  have e1 := store_embedding_ledger w.encode w.insertOk "This is a test sentence." none rs
  rw [h1] at e1
  rcases r1 with e | v1
  · simp only [mainBody, h1]
    exact e1
  · rcases h2 : batch_store_embeddings w.encode w.insertManyOk sample_texts rs1
      with ⟨r2, rs2⟩
    have e2 := batch_store_embeddings_ledger w.encode w.insertManyOk sample_texts rs1
    rw [h2] at e2
    rcases r2 with e | v2 <;>
      simp only [mainBody, h1, h2] <;>
      exact ⟨e2.1.trans e1.1, e2.2.trans e1.2⟩

theorem collectionExists_logCall (st : StoreState) (c : StoreCall) (name : String) :
    collectionExists (st.logCall c) name = collectionExists st name := rfl

theorem create_schema_ok (st : StoreState) :
    (create_schema true st).1 = .ok () ∧
    collectionExists (create_schema true st).2 "TextEmbedding" = true := by
  unfold create_schema
  split
  · split
    next hex => exact ⟨rfl, hex⟩
    next hex =>
      refine ⟨rfl, ?_⟩
      simp [collectionExists, StoreState.logCall, List.any_append]
  · next h => exact absurd rfl h

theorem encodeBatch_length (encode : String → Option Vec) :
    ∀ texts vs, encodeBatch encode texts = some vs → vs.length = texts.length := by
  intro texts
  induction texts with
  | nil => intro vs h; simp [encodeBatch] at h; subst h; rfl
  | cons t rest ih =>
    intro vs h
    rw [encodeBatch] at h
    cases he : encode t with
    | none => rw [he] at h; exact absurd h (by simp)
    | some v =>
      rw [he] at h
      cases hr : encodeBatch encode rest with
      | none => rw [hr] at h; exact absurd h (by simp)
      | some ws =>
        rw [hr] at h
        injection h with h
        subst h
        simp [ih ws hr]

theorem encodeBatch_get (encode : String → Option Vec) :
    ∀ texts vs, encodeBatch encode texts = some vs →
      ∀ i (hi : i < texts.length) (hv : i < vs.length),
        encode (texts.get ⟨i, hi⟩) = some (vs.get ⟨i, hv⟩) := by
  intro texts
  induction texts with
  | nil => intro vs h i hi; exact absurd hi (Nat.not_lt_zero i)
  | cons t rest ih =>
    intro vs h i hi hv
    rw [encodeBatch] at h
    cases he : encode t with
    | none => rw [he] at h; exact absurd h (by simp)
    | some v =>
      rw [he] at h
      cases hr : encodeBatch encode rest with
      | none => rw [hr] at h; exact absurd h (by simp)
      | some ws =>
        rw [hr] at h
        injection h with h
        subst h
        match i with
        | 0 => simpa using he
        | Nat.succ j =>
          have hj : j < rest.length := Nat.lt_of_succ_lt_succ hi
          have hvj : j < ws.length := Nat.lt_of_succ_lt_succ hv
          simpa using ih ws hr j hj hvj

/-! ## Claims -/

/-- Claim C1 (the spec is the intent; the code slips). When the endpoint
URL and the API key are absent, construction does not fail with a
configuration error reported at startup: `__init__` merely prints
"clound is not working", leaves `self.client` unassigned, and then calls
`_create_schema`, whose first expression raises `AttributeError`. The
failure thus surfaces from inside the schema-creation step and is not a
`ConfigurationError`; no store call is issued and no resource is
acquired. -/
theorem c1_absent_credentials_failure_deferred :
    (bertEmbedderInit happyWorld none none initialRunState).1
      = .error .attributeError ∧
    (bertEmbedderInit happyWorld none none initialRunState).1
      ≠ .error .configurationError ∧
    (bertEmbedderInit happyWorld none none initialRunState).2 = initialRunState :=
  ⟨rfl, fun h => PyErr.noConfusion (Except.error.inj h), rfl⟩

/-- Claim C8 (the spec is the intent; the code slips). The source embeds
default credentials: the constructor's default `weaviate_url` and
`weaviate_api_key` arguments are truthy compiled-in values, so no
explicit configuration injection is required — calling the constructor
with no arguments connects using the embedded credentials (a connection
is acquired). Moreover, absent configuration does not fail fast with a
configuration error. -/
theorem c8_compiled_in_default_credentials :
    truthy default_weaviate_url = true ∧
    truthy default_weaviate_api_key = true ∧
    (bertEmbedderInit happyWorld default_weaviate_url default_weaviate_api_key
        initialRunState).2.opens = 1 ∧
    (bertEmbedderInit happyWorld none none initialRunState).1
      ≠ .error .configurationError :=
  ⟨rfl, rfl, rfl, fun h => PyErr.noConfusion (Except.error.inj h)⟩

/-- Claim C2, counterexample. On the empty input list,
`batch_store_embeddings` does issue an insert call to the store: the
trace of the run contains exactly one `insert_many` call (carrying zero
records), refuting "issues no insert call". The returned identifier
sequence is empty, as claimed. -/
theorem c2_counterexample :
    (batch_store_embeddings (fun s => some [Int.ofNat s.length]) true []
        initialRunState).2.store.calls
      = [StoreCall.insertMany "TextEmbedding" []] ∧
    (batch_store_embeddings (fun s => some [Int.ofNat s.length]) true []
        initialRunState).1 = .ok [] :=
  ⟨rfl, rfl⟩

/-- Claim C2, amended: for the empty input list (and a store that accepts
the call), `batch_store_embeddings` returns the empty sequence of
identifiers and stores no record, but it does issue one batch-insert
call, carrying zero records, to the store. -/
theorem c2_empty_batch (encode : String → Option Vec) (rs : RunState) :
    (batch_store_embeddings encode true [] rs).1 = .ok [] ∧
    (batch_store_embeddings encode true [] rs).2.store.records
      = rs.store.records ∧
    (batch_store_embeddings encode true [] rs).2.nextUuid = rs.nextUuid ∧
    (batch_store_embeddings encode true [] rs).2.store.calls
      = rs.store.calls ++ [StoreCall.insertMany "TextEmbedding" []] := by
  refine ⟨rfl, ?_, rfl, rfl⟩
  simp [batch_store_embeddings, encodeBatch, mkBatchObjects]

/-- Claim C9: in both `store_embedding` and `batch_store_embeddings` the
embedding is computed before any identifier is generated or any insert is
issued, so when the model fails the operation returns the model error and
the run state — identifier counter, store records and store call trace —
is exactly unchanged. -/
theorem c9_model_failure_atomic (encode : String → Option Vec)
    (ok1 ok2 : Bool) (text : String) (text_id : Option String)
    (texts : List String) (rs : RunState)
    (h1 : encode text = none) (h2 : encodeBatch encode texts = none) :
    store_embedding encode ok1 text text_id rs = (.error .modelError, rs) ∧
    batch_store_embeddings encode ok2 texts rs = (.error .modelError, rs) := by
  constructor
  · simp [store_embedding, embed_text, h1]
  · simp [batch_store_embeddings, h2]

/-- Claim C9, witness: a concrete failing model on concrete inputs. -/
theorem c9_model_failure_atomic_witness :
    (fun (_ : String) => (none : Option Vec)) "x" = none ∧
    encodeBatch (fun _ => none) ["a"] = none ∧
    store_embedding (fun _ => none) true "x" none initialRunState
      = (.error .modelError, initialRunState) ∧
    batch_store_embeddings (fun _ => none) true ["a"] initialRunState
      = (.error .modelError, initialRunState) :=
  ⟨rfl, rfl,
    (c9_model_failure_atomic (fun _ => none) true true "x" none ["a"]
      initialRunState rfl rfl).1,
    (c9_model_failure_atomic (fun _ => none) true true "x" none ["a"]
      initialRunState rfl rfl).2⟩

/-- Claim C5: `_create_schema` is idempotent. Starting from a store where
the collection is absent, the first call creates `TextEmbedding` with
exactly the two text properties `text` and `text_id` and no automatic
vectorization, issuing one existence check and one creation call; the
second call issues only the existence check (no creation call), and the
collection set — in particular the property set — after both calls is
identical to after one call. -/
theorem c5_create_schema_idempotent (st : StoreState)
    (habs : collectionExists st "TextEmbedding" = false) :
    ∃ st1 st2,
      create_schema true st = (.ok (), st1) ∧
      st1.collections
        = st.collections ++ [⟨"TextEmbedding", schemaProperties, true⟩] ∧
      schemaProperties = [⟨"text", WDataType.TEXT⟩, ⟨"text_id", WDataType.TEXT⟩] ∧
      st1.calls = st.calls ++ [.existsCheck "TextEmbedding",
        .create "TextEmbedding" schemaProperties true] ∧
      create_schema true st1 = (.ok (), st2) ∧
      st2.collections = st1.collections ∧
      st2.records = st1.records ∧
      st2.calls = st1.calls ++ [.existsCheck "TextEmbedding"] := by
  have hcond : collectionExists (st.logCall (.existsCheck "TextEmbedding"))
      "TextEmbedding" = false := habs
  refine ⟨⟨st.collections ++ [⟨"TextEmbedding", schemaProperties, true⟩],
          st.records,
          st.calls ++ [.existsCheck "TextEmbedding",
            .create "TextEmbedding" schemaProperties true]⟩,
        ⟨st.collections ++ [⟨"TextEmbedding", schemaProperties, true⟩],
          st.records,
          (st.calls ++ [.existsCheck "TextEmbedding",
            .create "TextEmbedding" schemaProperties true])
            ++ [.existsCheck "TextEmbedding"]⟩,
        ?_, rfl, rfl, rfl, ?_, rfl, rfl, rfl⟩
  · simp only [create_schema, collectionExists_logCall, habs]
    simp [StoreState.logCall]
  · simp [create_schema, collectionExists, StoreState.logCall, List.any_append]

/-- Claim C5, witness: the empty store. -/
theorem c5_create_schema_idempotent_witness :
    ∃ st1 st2,
      create_schema true StoreState.empty = (.ok (), st1) ∧
      st1.collections
        = StoreState.empty.collections
            ++ [⟨"TextEmbedding", schemaProperties, true⟩] ∧
      schemaProperties = [⟨"text", WDataType.TEXT⟩, ⟨"text_id", WDataType.TEXT⟩] ∧
      st1.calls = StoreState.empty.calls ++ [.existsCheck "TextEmbedding",
        .create "TextEmbedding" schemaProperties true] ∧
      create_schema true st1 = (.ok (), st2) ∧
      st2.collections = st1.collections ∧
      st2.records = st1.records ∧
      st2.calls = st1.calls ++ [.existsCheck "TextEmbedding"] :=
  c5_create_schema_idempotent StoreState.empty rfl

/-- Claim C6: `store_embedding` returns the identifier used — the
caller-supplied one when given, otherwise a fresh generated identifier
distinct from every identifier previously generated in the session (those
drawn from counters below `rs.nextUuid`) — and the store receives exactly
one insert call, carrying exactly one record whose text is the input
text, whose `text_id` is the returned identifier, and whose vector is the
embedding of the input text, supplied directly. -/
theorem c6_store_embedding_contract (encode : String → Option Vec)
    (text : String) (v : Vec) (text_id : Option String) (rs : RunState)
    (hv : encode text = some v) :
    ∃ tid,
      (store_embedding encode true text text_id rs).1 = .ok tid ∧
      (store_embedding encode true text text_id rs).2.store.calls
        = rs.store.calls ++ [StoreCall.insert "TextEmbedding" ⟨text, tid, v⟩] ∧
      (store_embedding encode true text text_id rs).2.store.records
        = rs.store.records ++ [("TextEmbedding", ⟨text, tid, v⟩)] ∧
      (∀ t, text_id = some t → tid = t) ∧
      (text_id = none →
        tid = genUuid rs.nextUuid ∧
        (store_embedding encode true text text_id rs).2.nextUuid
          = rs.nextUuid + 1 ∧
        ∀ k, k < rs.nextUuid → genUuid k ≠ tid) := by
  cases text_id with
  | some t =>
    refine ⟨t, ?_, ?_, ?_, ?_, ?_⟩
    · simp [store_embedding, embed_text, hv]
    · simp [store_embedding, embed_text, hv]
    · simp [store_embedding, embed_text, hv]
    · intro u hu; cases hu; rfl
    · intro hcontra; exact absurd hcontra (by simp)
  | none =>
    refine ⟨genUuid rs.nextUuid, ?_, ?_, ?_, ?_, ?_⟩
    · simp [store_embedding, embed_text, hv]
    · simp [store_embedding, embed_text, hv]
    · simp [store_embedding, embed_text, hv]
    · intro u hu; exact absurd hu (by simp)
    · intro _
      refine ⟨rfl, by simp [store_embedding, embed_text, hv], ?_⟩
      intro k hk heq
      exact absurd (genUuid_injective heq) (Nat.ne_of_lt hk)

/-- Claim C6, witness: storing one concrete text with no caller id. -/
theorem c6_store_embedding_contract_witness :
    ∃ tid,
      (store_embedding (fun s => some [Int.ofNat s.length]) true "hello" none
          initialRunState).1 = .ok tid ∧
      (store_embedding (fun s => some [Int.ofNat s.length]) true "hello" none
          initialRunState).2.store.calls
        = initialRunState.store.calls
            ++ [StoreCall.insert "TextEmbedding" ⟨"hello", tid, [Int.ofNat 5]⟩] ∧
      (store_embedding (fun s => some [Int.ofNat s.length]) true "hello" none
          initialRunState).2.store.records
        = initialRunState.store.records
            ++ [("TextEmbedding", ⟨"hello", tid, [Int.ofNat 5]⟩)] ∧
      (∀ t, (none : Option String) = some t → tid = t) ∧
      ((none : Option String) = none →
        tid = genUuid initialRunState.nextUuid ∧
        (store_embedding (fun s => some [Int.ofNat s.length]) true "hello" none
            initialRunState).2.nextUuid = initialRunState.nextUuid + 1 ∧
        ∀ k, k < initialRunState.nextUuid → genUuid k ≠ tid) :=
  c6_store_embedding_contract (fun s => some [Int.ofNat s.length]) "hello"
    [Int.ofNat 5] none initialRunState rfl

/-- Claim C7: the batched embedding path (the external model's batched
encode, as consumed at line 113) yields one vector per input text, in
input order, and the i-th batched vector equals the vector the
single-text path `embed_text` returns on the i-th text. -/
theorem c7_batch_embed_agrees_single (encode : String → Option Vec)
    (texts : List String) (vs : List Vec)
    (h : encodeBatch encode texts = some vs) :
    vs.length = texts.length ∧
    ∀ i (hi : i < texts.length) (hv : i < vs.length),
      embed_text encode (texts.get ⟨i, hi⟩) = .ok (vs.get ⟨i, hv⟩) := by
  refine ⟨encodeBatch_length encode texts vs h, ?_⟩
  intro i hi hv
  have h2 := encodeBatch_get encode texts vs h i hi hv
  simp only [List.get_eq_getElem] at h2
  simp [embed_text, h2]

/-- Claim C7, witness: a concrete model on two concrete texts. -/
theorem c7_batch_embed_agrees_single_witness :
    ([[1], [2]] : List Vec).length = (["a", "bb"] : List String).length ∧
    ∀ i (hi : i < (["a", "bb"] : List String).length)
        (hv : i < ([[1], [2]] : List Vec).length),
      embed_text (fun s => some [Int.ofNat s.length])
          ((["a", "bb"] : List String).get ⟨i, hi⟩)
        = .ok (([[1], [2]] : List Vec).get ⟨i, hv⟩) :=
  c7_batch_embed_agrees_single (fun s => some [Int.ofNat s.length])
    ["a", "bb"] [[1], [2]] rfl

/-- Claim C4: when the model embeds every text, `batch_store_embeddings`
returns exactly one generated identifier per input text, all identifiers
distinct, in input order, and submits exactly one batch-insert call whose
i-th record carries the i-th input text under the i-th returned
identifier. -/
theorem c4_batch_store_one_id_per_text (encode : String → Option Vec)
    (texts : List String) (vs : List Vec) (rs : RunState)
    (h : encodeBatch encode texts = some vs) :
    ∃ ids objs,
      (batch_store_embeddings encode true texts rs).1 = .ok ids ∧
      ids.length = texts.length ∧
      ids.Nodup ∧
      objs.length = texts.length ∧
      (batch_store_embeddings encode true texts rs).2.store.calls
        = rs.store.calls ++ [StoreCall.insertMany "TextEmbedding" objs] ∧
      (batch_store_embeddings encode true texts rs).2.store.records
        = rs.store.records ++ objs.map (fun r => ("TextEmbedding", r)) ∧
      ∀ i (hi : i < texts.length) (ho : i < objs.length) (hd : i < ids.length),
        (objs.get ⟨i, ho⟩).text = texts.get ⟨i, hi⟩ ∧
        (objs.get ⟨i, ho⟩).text_id = ids.get ⟨i, hd⟩ := by
  have hlen : vs.length = texts.length := encodeBatch_length encode texts vs h
  have hzlen : (texts.zip vs).length = texts.length := by
    rw [List.length_zip, hlen, Nat.min_self]
  have hmain : batch_store_embeddings encode true texts rs
      = (.ok (mkBatchObjects (texts.zip vs) rs.nextUuid).2,
         { rs with
           nextUuid := rs.nextUuid
             + (mkBatchObjects (texts.zip vs) rs.nextUuid).2.length,
           store :=
            { rs.store with
              records := rs.store.records
                ++ (mkBatchObjects (texts.zip vs) rs.nextUuid).1.map
                    (fun r => ("TextEmbedding", r)),
              calls := rs.store.calls
                ++ [.insertMany "TextEmbedding"
                      (mkBatchObjects (texts.zip vs) rs.nextUuid).1] } }) := by
    simp [batch_store_embeddings, h]
  refine ⟨(mkBatchObjects (texts.zip vs) rs.nextUuid).2,
          (mkBatchObjects (texts.zip vs) rs.nextUuid).1,
          ?_, ?_, ?_, ?_, ?_, ?_, ?_⟩
  · rw [hmain]
  · rw [mkBatchObjects_snd_length, hzlen]
  · exact mkBatchObjects_snd_nodup (texts.zip vs) rs.nextUuid
  · rw [mkBatchObjects_fst_length, hzlen]
  · rw [hmain]
  · rw [hmain]
  · intro i hi ho hd
    have hz : i < (texts.zip vs).length := by rw [hzlen]; exact hi
    have hfst := mkBatchObjects_fst_get (texts.zip vs) rs.nextUuid i hz ho
    have hsnd := mkBatchObjects_snd_get (texts.zip vs) rs.nextUuid i hd
    rw [hfst, hsnd]
    have hvlen : i < vs.length := by rw [hlen]; exact hi
    have hzget : (texts.zip vs).get ⟨i, hz⟩ = (texts.get ⟨i, hi⟩, vs.get ⟨i, hvlen⟩) := by
      simp [List.get_eq_getElem, List.getElem_zip]
    rw [hzget]
    exact ⟨rfl, rfl⟩

/-- Claim C4, witness: three concrete texts under a concrete model. -/
theorem c4_batch_store_one_id_per_text_witness :
    ∃ ids objs,
      (batch_store_embeddings (fun s => some [Int.ofNat s.length]) true
          ["a", "b", "c"] initialRunState).1 = .ok ids ∧
      ids.length = (["a", "b", "c"] : List String).length ∧
      ids.Nodup ∧
      objs.length = (["a", "b", "c"] : List String).length ∧
      (batch_store_embeddings (fun s => some [Int.ofNat s.length]) true
          ["a", "b", "c"] initialRunState).2.store.calls
        = initialRunState.store.calls
            ++ [StoreCall.insertMany "TextEmbedding" objs] ∧
      (batch_store_embeddings (fun s => some [Int.ofNat s.length]) true
          ["a", "b", "c"] initialRunState).2.store.records
        = initialRunState.store.records
            ++ objs.map (fun r => ("TextEmbedding", r)) ∧
      ∀ i (hi : i < (["a", "b", "c"] : List String).length)
          (ho : i < objs.length) (hd : i < ids.length),
        (objs.get ⟨i, ho⟩).text = (["a", "b", "c"] : List String).get ⟨i, hi⟩ ∧
        (objs.get ⟨i, ho⟩).text_id = ids.get ⟨i, hd⟩ :=
  c4_batch_store_one_id_per_text (fun s => some [Int.ofNat s.length])
    ["a", "b", "c"] [[1], [1], [1]] initialRunState rfl

/-- Claim C3, counterexample. When the connection is established but the
store then rejects the schema operations, the error is raised inside
`BertEmbedder.__init__`, so the `embedder` variable of the driver is
still `None` and the `finally` block skips `close()`: the run ends with
one connection opened and zero connections closed — the release step does
not run on this error path, refuting "released exactly once per
successful open, on every exit path". -/
theorem c3_counterexample :
    (runMain schemaFailWorld).opens = 1 ∧ (runMain schemaFailWorld).closes = 0 :=
  ⟨rfl, rfl⟩

/-- Claim C3, amended: once construction succeeds (connection established
and schema operations accepted), the connection-release step runs exactly
once per run — on normal completion and on any model or write error
occurring afterwards; but when the schema step fails during construction,
the opened connection is not released. -/
theorem c3_close_once_after_successful_init (w : World)
    (hc : w.connectOk = true) (hs : w.schemaOk = true) :
    (runMain w).opens = 1 ∧ (runMain w).closes = 1 := by
  obtain ⟨co, so, enc, io, imo⟩ := w
  simp only at hc hs
  subst hc
  subst hs
  have hinit : bertEmbedderInit ⟨true, true, enc, io, imo⟩
      default_weaviate_url default_weaviate_api_key initialRunState
      = (.ok (),
         ⟨⟨[⟨"TextEmbedding", schemaProperties, true⟩], [],
           [.existsCheck "TextEmbedding",
            .create "TextEmbedding" schemaProperties true]⟩, 0, 1, 0⟩) := rfl
  have hm := mainBody_ledger ⟨true, true, enc, io, imo⟩
      ⟨⟨[⟨"TextEmbedding", schemaProperties, true⟩], [],
        [.existsCheck "TextEmbedding",
         .create "TextEmbedding" schemaProperties true]⟩, 0, 1, 0⟩
  simp only [runMain, hinit, close]
  exact ⟨hm.1, by rw [hm.2]⟩

/-- Claim C3, witness for the amended statement: the fully successful
world. -/
theorem c3_close_once_after_successful_init_witness :
    (runMain happyWorld).opens = 1 ∧ (runMain happyWorld).closes = 1 :=
  c3_close_once_after_successful_init happyWorld rfl rfl

theorem store_embedding_calls_target (encode : String → Option Vec) (ok : Bool)
    (text : String) (tid : Option String) (rs : RunState) (c : StoreCall)
    (hc : c ∈ (store_embedding encode ok text tid rs).2.store.calls) :
    c ∈ rs.store.calls ∨ c.writeTarget = some "TextEmbedding" := by
  unfold store_embedding embed_text at hc
  cases he : encode text with
  | none =>
    rw [he] at hc
    exact Or.inl hc
  | some v =>
    rw [he] at hc
    cases tid <;> cases ok <;>
      simp only [StoreState.logCall, List.mem_append, List.mem_singleton,
        Bool.false_eq_true, if_false, if_true] at hc <;>
      rcases hc with hold | rfl <;>
      first
        | exact Or.inl hold
        | exact Or.inr rfl

theorem batch_store_embeddings_calls_target (encode : String → Option Vec)
    (ok : Bool) (texts : List String) (rs : RunState) (c : StoreCall)
    (hc : c ∈ (batch_store_embeddings encode ok texts rs).2.store.calls) :
    c ∈ rs.store.calls ∨ c.writeTarget = some "TextEmbedding" := by
  unfold batch_store_embeddings at hc
  cases h : encodeBatch encode texts with
  | none => rw [h] at hc; exact Or.inl hc
  | some vs =>
    rw [h] at hc
    cases ok <;>
      simp only [StoreState.logCall, List.mem_append, List.mem_singleton,
        Bool.false_eq_true, if_false, if_true] at hc <;>
      rcases hc with hold | rfl <;>
      first
        | exact Or.inl hold
        | exact Or.inr rfl

theorem bertEmbedderInit_ensures_schema (w : World) (url key : Option String)
    (rs rs' : RunState)
    (hinit : bertEmbedderInit w url key rs = (.ok (), rs')) :
    collectionExists rs'.store "TextEmbedding" = true := by
  unfold bertEmbedderInit at hinit
  by_cases ht : (truthy url && truthy key) = true
  · rw [if_pos ht] at hinit
    cases hco : w.connectOk with
    | false => rw [hco] at hinit; simp at hinit
    | true =>
      rw [hco, if_pos rfl] at hinit
      cases hcs : w.schemaOk with
      | false =>
        rw [hcs] at hinit
        unfold create_schema at hinit
        simp at hinit
      | true =>
        rw [hcs] at hinit
        rcases hmk : create_schema true rs.store with ⟨r, st⟩
        rw [hmk] at hinit
        have hok := create_schema_ok rs.store
        rw [hmk] at hok
        cases r with
        | error e => simp at hinit
        | ok u =>
          have hrs : rs' = { rs with opens := rs.opens + 1, store := st } := by
            have := congrArg Prod.snd hinit
            simpa using this.symm
          rw [hrs]
          exact hok.2
  · rw [if_neg ht] at hinit
    simp at hinit

/-- Claim C10: a successfully constructed embedder targets the single
fixed collection `TextEmbedding`: the constructor guarantees the
collection exists in the store before returning, and both the single and
the batch write path only add store calls whose write target is the
`TextEmbedding` collection. -/
theorem c10_single_fixed_collection (w : World) (url key : Option String)
    (rs rs' : RunState)
    (hinit : bertEmbedderInit w url key rs = (.ok (), rs')) :
    collectionExists rs'.store "TextEmbedding" = true ∧
    (∀ encode ok text tid rs2 c,
        c ∈ (store_embedding encode ok text tid rs2).2.store.calls →
        c ∈ rs2.store.calls ∨ c.writeTarget = some "TextEmbedding") ∧
    (∀ encode ok texts rs2 c,
        c ∈ (batch_store_embeddings encode ok texts rs2).2.store.calls →
        c ∈ rs2.store.calls ∨ c.writeTarget = some "TextEmbedding") :=
  ⟨bertEmbedderInit_ensures_schema w url key rs rs' hinit,
   fun encode ok text tid rs2 c hc =>
     store_embedding_calls_target encode ok text tid rs2 c hc,
   fun encode ok texts rs2 c hc =>
     batch_store_embeddings_calls_target encode ok texts rs2 c hc⟩

/-- Claim C10, witness: the default construction in the fully successful
world. -/
theorem c10_single_fixed_collection_witness :
    collectionExists (bertEmbedderInit happyWorld default_weaviate_url
        default_weaviate_api_key initialRunState).2.store "TextEmbedding" = true ∧
    (∀ encode ok text tid rs2 c,
        c ∈ (store_embedding encode ok text tid rs2).2.store.calls →
        c ∈ rs2.store.calls ∨ c.writeTarget = some "TextEmbedding") ∧
    (∀ encode ok texts rs2 c,
        c ∈ (batch_store_embeddings encode ok texts rs2).2.store.calls →
        c ∈ rs2.store.calls ∨ c.writeTarget = some "TextEmbedding") :=
  c10_single_fixed_collection happyWorld default_weaviate_url
    default_weaviate_api_key initialRunState
    (bertEmbedderInit happyWorld default_weaviate_url default_weaviate_api_key
      initialRunState).2 rfl

end EmbedderModel
